import Mathlib

/-
Verification of validate_vtk.py, a line-based validator for legacy VTK
ASCII files.

A file that exists is modelled as the list of lines that Python's
readlines() returns (each line a string, terminators included when
present); the file system is a partial map from paths to such line lists.
A validation run that raises an uncaught Python exception (the unguarded
lines[0] access on an empty file) is modelled as Except.error ().
-/

set_option maxRecDepth 16384

namespace VTKValidate

/-- The whitespace characters removed by Python str.strip, restricted to
the ASCII range, which is the relevant one for VTK ASCII content. -/
def isPyWs (c : Char) : Bool :=
  c = ' ' || c = '\t' || c = '\n' || c = '\r' || c = '\x0b' || c = '\x0c'

/-- Python str.strip on the underlying character list: drop the longest
run of whitespace at each end. -/
def stripChars (l : List Char) : List Char :=
  ((l.dropWhile isPyWs).reverse.dropWhile isPyWs).reverse

/-- Python line.strip(). -/
def strip (s : String) : String :=
  String.mk (stripChars s.data)

/-- Python s.startswith(p): p is a prefix of the character sequence of s. -/
def startswith (s p : String) : Bool :=
  p.data.isPrefixOf s.data

/-- Python membership test p in s: p occurs as a contiguous substring of
the character sequence of s. -/
def containsSub (s p : String) : Bool :=
  (List.range (s.data.length + 1)).any fun k => p.data.isPrefixOf (s.data.drop k)

/-- Python lines[i-1] as evaluated inside the comment loop: for i = 0 the
index -1 wraps around to the last element of the (nonempty) list. -/
def pyPrev (lines : List String) (i : Nat) : String :=
  if i = 0 then lines.getLastD "" else lines.getD (i - 1) ""

/-- The search loop for the first line that starts with CELL_DATA
(validate_vtk.py lines 24-28): index of the first raw line with that
prefix, none when there is no such line. -/
def findCellData : List String → Option Nat
  | [] => none
  | l :: ls =>
    if startswith l "CELL_DATA" then some 0 else (findCellData ls).map (· + 1)

/-- The error message built at validate_vtk.py line 35; excerpt is the
already-truncated text interpolated there. -/
def commentMsg (i : Nat) (excerpt : String) : String :=
  "Invalid comment in CELL_DATA section at line " ++ toString (i + 1) ++ ": " ++ excerpt

/-- The comment scan over lines[cell_data_idx:] (validate_vtk.py lines
30-35): every line whose stripped form starts with "#" and whose
predecessor, Python-indexed and stripped, does not start with
LOOKUP_TABLE yields one error, in ascending line order. -/
def commentErrors (lines : List String) (i0 : Nat) : List String :=
  (List.range (lines.length - i0)).filterMap fun k =>
    let i := i0 + k
    let line := strip (lines.getD i "")
    if startswith line "#" && !(startswith (strip (pyPrev lines i)) "LOOKUP_TABLE")
    then some (commentMsg i (line.take 50))
    else none

/-- The header check of validate_vtk.py lines 20-21, evaluated on the
first line (only used when the file is nonempty). -/
def headerErrors (lines : List String) : List String :=
  if startswith (lines.getD 0 "") "# vtk DataFile Version" then []
  else ["Missing or invalid VTK version header"]

/-- Errors of the CELL_DATA comment check: empty when no line starts with
CELL_DATA (validate_vtk.py line 30). -/
def cellDataErrors (lines : List String) : List String :=
  match findCellData lines with
  | none => []
  | some i0 => commentErrors lines i0

/-- The fixed required-keyword list of validate_vtk.py line 38. -/
def requiredSections : List String :=
  ["ASCII", "DATASET", "POINTS", "CELLS", "CELL_TYPES"]

/-- The found_sections accumulation of validate_vtk.py lines 39-44: for
each of the first 20 lines, in order, every required keyword occurring as
a substring of that line. -/
def foundSections (lines : List String) : List String :=
  (lines.take 20).flatMap fun line =>
    requiredSections.filter fun s => containsSub line s

/-- The warning pass of validate_vtk.py lines 46-48: one warning per
required keyword absent from found_sections, in keyword-list order. -/
def sectionWarnings (lines : List String) : List String :=
  requiredSections.filterMap fun s =>
    if s ∈ foundSections lines then none
    else some ("Section '" ++ s ++ "' not found in first 20 lines")

/-- validate_vtk_file on the line list of an existing file.  The
unguarded lines[0] access at validate_vtk.py line 20 raises IndexError
when the list is empty, modelled as Except.error (). -/
def validateLines (lines : List String) : Except Unit (List String × List String) :=
  if lines.isEmpty then Except.error ()
  else Except.ok (headerErrors lines ++ cellDataErrors lines, sectionWarnings lines)

/-- validate_vtk_file (validate_vtk.py lines 8-50): a missing file yields
the single File-not-found error and no warnings; an existing file is
validated from its readlines() result. -/
def validate_vtk_file (fs : String → Option (List String)) (filepath : String) :
    Except Unit (List String × List String) :=
  match fs filepath with
  | none => Except.ok (["File not found: " ++ filepath], [])
  | some lines => validateLines lines

/-- The total_errors accumulation of main (validate_vtk.py lines 57-69):
fold over the argument list, adding each file's error count; an exception
raised inside validate_vtk_file aborts the whole run. -/
def runTotals (fs : String → Option (List String)) :
    List String → Nat → Except Unit Nat
  | [], acc => Except.ok acc
  | p :: ps, acc =>
    match validate_vtk_file fs p with
    | Except.error e => Except.error e
    | Except.ok (errs, _) => runTotals fs ps (acc + errs.length)

/-- Outcome of main on the argument list args = sys.argv[1:]
(validate_vtk.py lines 57-85): the exit status (1 iff total_errors > 0),
the printed Total-files-validated count (len(sys.argv[1:])) and the
printed Total-errors count.  Warnings are never consulted. -/
def mainResult (fs : String → Option (List String)) (args : List String) :
    Except Unit (Nat × Nat × Nat) :=
  match runTotals fs args 0 with
  | Except.error e => Except.error e
  | Except.ok t => Except.ok (if t > 0 then 1 else 0, args.length, t)

/-- Per-file error count of validate_vtk_file, for stating the aggregate
sum (0 in the unreachable raising case; only used under a no-raise
hypothesis). -/
def errCount (fs : String → Option (List String)) (p : String) : Nat :=
  match validate_vtk_file fs p with
  | Except.ok (errs, _) => errs.length
  | Except.error _ => 0

/-- Spec formulation of the CELL_DATA comment check, written from the
spec's words for claim C1: the lookback at the line before index 0 is
vacuously not LOOKUP_TABLE, never wrapping around to the last line. -/
def specCellDataErrors (lines : List String) (i0 : Nat) : List String :=
  (List.range (lines.length - i0)).filterMap fun k =>
    let i := i0 + k
    let line := strip (lines.getD i "")
    let prevLT := if i = 0 then false
      else startswith (strip (lines.getD (i - 1) "")) "LOOKUP_TABLE"
    if startswith line "#" && !prevLT then some (commentMsg i (line.take 50))
    else none

/-- Spec formulation of the required-section warnings, written from the
spec's words for claim C4: exactly one warning per keyword, in the fixed
keyword order, emitted iff the keyword occurs as a substring of none of
the first 20 lines. -/
def specSectionWarnings (lines : List String) : List String :=
  requiredSections.filterMap fun s =>
    if (lines.take 20).any (fun line => containsSub line s) then none
    else some ("Section '" ++ s ++ "' not found in first 20 lines")

/-! Helper lemmas -/

theorem dropWhile_all_neg (l : List Char) (h : l.all (fun c => !isPyWs c) = true) :
    l.dropWhile isPyWs = l := by
  cases l with
  | nil => rfl
  | cons a t =>
    have ha : isPyWs a = false := by
      simpa using List.all_eq_true.mp h a (List.mem_cons_self a t)
    rw [List.dropWhile_cons, ha]
    simp

theorem stripChars_append (cd t : List Char)
    (hall : cd.all (fun c => !isPyWs c) = true) (hne : cd ≠ []) :
    stripChars (cd ++ t) = cd ++ (t.reverse.dropWhile isPyWs).reverse := by
  obtain ⟨x, xs, rfl⟩ := List.exists_cons_of_ne_nil hne
  have hx : isPyWs x = false := by
    simpa using List.all_eq_true.mp hall x (List.mem_cons_self x xs)
  unfold stripChars
  rw [List.cons_append, List.dropWhile_cons, hx]
  simp only [Bool.false_eq_true, if_false]
  have hrev : (x :: (xs ++ t)).reverse = t.reverse ++ (x :: xs).reverse := by
    rw [← List.cons_append, List.reverse_append]
  rw [hrev, List.dropWhile_append]
  by_cases hdw : (t.reverse.dropWhile isPyWs).isEmpty = true
  · rw [if_pos hdw]
    have ht : t.reverse.dropWhile isPyWs = [] := List.isEmpty_iff.mp hdw
    rw [ht]
    have hself : (x :: xs).reverse.dropWhile isPyWs = (x :: xs).reverse := by
      apply dropWhile_all_neg
      rw [List.all_reverse]
      exact hall
    rw [hself, List.reverse_reverse]
    simp
  · rw [if_neg hdw, List.reverse_append, List.reverse_reverse]

theorem startswith_iff {s p : String} :
    startswith s p = true ↔ p.data <+: s.data := by
  simp only [startswith]
  exact List.isPrefixOf_iff_prefix

/-- Stripping preserves a CELL_DATA prefix: none of its characters are
whitespace. -/
theorem strip_startswith_cell {l : String} (h : startswith l "CELL_DATA" = true) :
    startswith (strip l) "CELL_DATA" = true := by
  rw [startswith_iff] at h ⊢
  obtain ⟨t, ht⟩ := h
  have hd : (strip l).data = stripChars l.data := rfl
  rw [hd, ← ht, stripChars_append _ _ (by decide) (by decide)]
  exact ⟨_, rfl⟩

/-- A string starting with CELL_DATA does not start with the hash sign. -/
theorem startswith_hash_false {s : String} (h : startswith s "CELL_DATA" = true) :
    startswith s "#" = false := by
  rw [Bool.eq_false_iff]
  intro hcontra
  rw [startswith_iff] at h hcontra
  obtain ⟨t, ht⟩ := h
  obtain ⟨u, hu⟩ := hcontra
  have hc : "CELL_DATA".data = 'C' :: "ELL_DATA".data := rfl
  have hh : "#".data = ['#'] := rfl
  rw [hc] at ht
  rw [hh, ← ht] at hu
  simp only [List.cons_append, List.singleton_append, List.cons.injEq] at hu
  exact absurd hu.1 (by decide)

theorem findCellData_eq_none {lines : List String} :
    findCellData lines = none ↔ ∀ l ∈ lines, startswith l "CELL_DATA" = false := by
  induction lines with
  | nil => simp [findCellData]
  | cons a ls ih =>
    by_cases ha : startswith a "CELL_DATA" = true
    · simp [findCellData, ha]
    · have ha' : startswith a "CELL_DATA" = false := by
        cases hb : startswith a "CELL_DATA" with
        | false => rfl
        | true => exact absurd hb ha
      simp [findCellData, ha', Option.map_eq_none', ih]

theorem findCellData_spec {lines : List String} {i0 : Nat}
    (h : findCellData lines = some i0) :
    i0 < lines.length ∧ startswith (lines.getD i0 "") "CELL_DATA" = true := by
  induction lines generalizing i0 with
  | nil => exact absurd h (by simp [findCellData])
  | cons a ls ih =>
    simp only [findCellData] at h
    by_cases ha : startswith a "CELL_DATA" = true
    · rw [if_pos ha] at h
      obtain rfl : i0 = 0 := (Option.some.inj h).symm
      exact ⟨Nat.succ_pos _, by simpa [List.getD_cons_zero] using ha⟩
    · rw [if_neg ha] at h
      cases hrec : findCellData ls with
      | none => rw [hrec] at h; exact absurd h (by simp)
      | some j =>
        rw [hrec] at h
        simp only [Option.map_some'] at h
        obtain rfl : i0 = j + 1 := (Option.some.inj h).symm
        obtain ⟨hlt, hsw⟩ := ih hrec
        exact ⟨Nat.succ_lt_succ hlt, by simpa [List.getD_cons_succ] using hsw⟩

/-- The Python comment scan, with its wrap-around indexing at i = 0,
coincides with the spec formulation (vacuous lookback at line 0): when
CELL_DATA is line 0, line 0 starts with CELL_DATA and its stripped form
therefore never starts with the hash sign, so the wrapped lookback is
never consulted. -/
theorem cellDataErrors_eq_spec {lines : List String} {i0 : Nat}
    (hfind : findCellData lines = some i0) :
    cellDataErrors lines = specCellDataErrors lines i0 := by
  unfold cellDataErrors
  rw [hfind]
  unfold commentErrors specCellDataErrors
  apply List.filterMap_congr
  intro k hk
  by_cases hi : i0 + k = 0
  · have hi0 : i0 = 0 := by omega
    have hk0 : k = 0 := by omega
    subst hk0
    subst hi0
    have h0 : startswith (lines.getD 0 "") "CELL_DATA" = true := (findCellData_spec hfind).2
    have hh : startswith (strip (lines.getD 0 "")) "#" = false :=
      startswith_hash_false (strip_startswith_cell h0)
    rw [List.getD_eq_getElem?_getD] at hh
    simp [hh]
  · simp [pyPrev, hi]

theorem mem_foundSections {lines : List String} {s : String} (hs : s ∈ requiredSections) :
    s ∈ foundSections lines ↔ ∃ line ∈ lines.take 20, containsSub line s = true := by
  unfold foundSections
  rw [List.mem_flatMap]
  constructor
  · rintro ⟨line, hline, hmem⟩
    exact ⟨line, hline, (List.mem_filter.mp hmem).2⟩
  · rintro ⟨line, hline, hcs⟩
    exact ⟨line, hline, List.mem_filter.mpr ⟨hs, hcs⟩⟩

/-- The found_sections accumulation yields exactly the spec formulation of
the warnings: one per keyword, in keyword order, iff no substring hit in
the first 20 lines. -/
theorem sectionWarnings_eq_spec (lines : List String) :
    sectionWarnings lines = specSectionWarnings lines := by
  unfold sectionWarnings specSectionWarnings
  apply List.filterMap_congr
  intro s hs
  apply if_congr _ rfl rfl
  exact (mem_foundSections hs).trans List.any_eq_true.symm

/-- Every CELL_DATA comment error message is at least 45 characters long
(the length of its fixed leading part). -/
theorem cellDataErrors_length {lines : List String} {m : String}
    (hm : m ∈ cellDataErrors lines) : 45 ≤ m.length := by
  unfold cellDataErrors at hm
  cases hfind : findCellData lines with
  | none => rw [hfind] at hm; cases hm
  | some i0 =>
    rw [hfind] at hm
    unfold commentErrors at hm
    obtain ⟨k, hk, hf⟩ := List.mem_filterMap.mp hm
    dsimp only at hf
    split at hf
    · obtain rfl := Option.some.inj hf
      unfold commentMsg
      rw [String.length_append, String.length_append, String.length_append]
      have h45 : ("Invalid comment in CELL_DATA section at line ").length = 45 := rfl
      omega
    · cases hf

/-! Claim theorems -/

/-- C1: for a readable file whose first raw CELL_DATA line is at index
i0, the error list validate returns is the header errors followed exactly
by the spec-mandated comment errors: one error per line at or after i0
whose stripped form starts with "#", present iff the immediately
preceding stripped line does not start with LOOKUP_TABLE, the lookback
being vacuously not LOOKUP_TABLE at line 0 (never wrapping around to the
last line), with message "Invalid comment in CELL_DATA section at line n:
excerpt" for 1-based n. -/
theorem claim_C1 (lines : List String) (i0 : Nat)
    (hfind : findCellData lines = some i0) :
    validateLines lines =
      Except.ok (headerErrors lines ++ specCellDataErrors lines i0, sectionWarnings lines) := by
  have hne : lines.isEmpty = false := by
    cases lines with
    | nil => exact absurd hfind (by simp [findCellData])
    | cons a ls => rfl
  unfold validateLines
  rw [hne, cellDataErrors_eq_spec hfind]
  simp

theorem claim_C1_witness :
    validateLines ["CELL_DATA 1", "# x", "LOOKUP_TABLE t", "# ok"] =
      Except.ok
        (headerErrors ["CELL_DATA 1", "# x", "LOOKUP_TABLE t", "# ok"] ++
            specCellDataErrors ["CELL_DATA 1", "# x", "LOOKUP_TABLE t", "# ok"] 0,
          sectionWarnings ["CELL_DATA 1", "# x", "LOOKUP_TABLE t", "# ok"]) :=
  claim_C1 ["CELL_DATA 1", "# x", "LOOKUP_TABLE t", "# ok"] 0 rfl

/-- C2: the code, not the claim — on an existing but empty file (zero
lines) validate_vtk_file raises (the unguarded lines[0] access), instead
of reporting the missing header as an error finding. -/
theorem claim_C2 :
    validate_vtk_file (fun _ => some []) "empty.vtk" = Except.error () := rfl

/-- C3 counterexample: on the file ["CELL_DATA 1", "  # hi"] the emitted
comment error carries the stripped excerpt "# hi", not the first 50
characters of the original unstripped line "  # hi" as the claim states.
-/
theorem claim_C3_counterexample :
    validateLines ["CELL_DATA 1", "  # hi"] =
        Except.ok (["Missing or invalid VTK version header",
            "Invalid comment in CELL_DATA section at line 2: # hi"],
          ["Section 'ASCII' not found in first 20 lines",
            "Section 'DATASET' not found in first 20 lines",
            "Section 'POINTS' not found in first 20 lines",
            "Section 'CELLS' not found in first 20 lines",
            "Section 'CELL_TYPES' not found in first 20 lines"]) ∧
      "Invalid comment in CELL_DATA section at line 2: " ++ String.take "  # hi" 50 ≠
        "Invalid comment in CELL_DATA section at line 2: # hi" :=
  ⟨rfl, by decide⟩

/-- C3 amended: every CELL_DATA comment error message carries as excerpt
the first 50 characters of the whitespace-stripped content of the
offending line (not of the original unstripped line). -/
theorem claim_C3_amended (lines : List String) (i0 : Nat) (msg : String)
    (hfind : findCellData lines = some i0)
    (hmem : msg ∈ cellDataErrors lines) :
    ∃ i, i0 ≤ i ∧ i < lines.length ∧
      msg = "Invalid comment in CELL_DATA section at line " ++ toString (i + 1) ++ ": " ++
        (strip (lines.getD i "")).take 50 := by
  unfold cellDataErrors at hmem
  rw [hfind] at hmem
  unfold commentErrors at hmem
  obtain ⟨k, hk, hf⟩ := List.mem_filterMap.mp hmem
  dsimp only at hf
  refine ⟨i0 + k, Nat.le_add_right _ _, ?_, ?_⟩
  · have := List.mem_range.mp hk
    omega
  · split at hf
    · exact (Option.some.inj hf).symm
    · cases hf

theorem claim_C3_amended_witness :
    ∃ i, 0 ≤ i ∧ i < (["CELL_DATA 1", "# x"] : List String).length ∧
      "Invalid comment in CELL_DATA section at line 2: # x" =
        "Invalid comment in CELL_DATA section at line " ++ toString (i + 1) ++ ": " ++
          (strip ((["CELL_DATA 1", "# x"] : List String).getD i "")).take 50 :=
  claim_C3_amended ["CELL_DATA 1", "# x"] 0
    "Invalid comment in CELL_DATA section at line 2: # x" rfl (by decide)

theorem cellDataErrors_eq_nil {lines : List String}
    (hfind : findCellData lines = none) : cellDataErrors lines = [] := by
  unfold cellDataErrors
  rw [hfind]

/-- C4: whenever validation completes, the warning list is exactly the
spec formulation: for each of the five required keywords, in the fixed
keyword-list order, one warning naming it iff the keyword occurs as a
substring of none of the first 20 lines (or all lines if fewer). -/
theorem claim_C4 (lines errs warns : List String)
    (h : validateLines lines = Except.ok (errs, warns)) :
    warns = specSectionWarnings lines := by
  unfold validateLines at h
  by_cases he : lines.isEmpty = true
  · rw [if_pos he] at h
    exact Except.noConfusion h
  · rw [if_neg he] at h
    injection h with h'
    injection h' with he' hw'
    subst hw'
    exact sectionWarnings_eq_spec lines

theorem claim_C4_witness :
    ["Section 'DATASET' not found in first 20 lines",
        "Section 'CELLS' not found in first 20 lines",
        "Section 'CELL_TYPES' not found in first 20 lines"] =
      specSectionWarnings ["# vtk DataFile Version 3.0", "ASCII POINTS"] :=
  claim_C4 ["# vtk DataFile Version 3.0", "ASCII POINTS"] []
    ["Section 'DATASET' not found in first 20 lines",
      "Section 'CELLS' not found in first 20 lines",
      "Section 'CELL_TYPES' not found in first 20 lines"] rfl

/-- C5: whenever validation completes on a file with no raw
CELL_DATA-prefixed line, no returned error is a CELL_DATA comment error,
however many lines start with "#" elsewhere. -/
theorem claim_C5 (lines errs warns : List String)
    (h : validateLines lines = Except.ok (errs, warns))
    (hno : ∀ l ∈ lines, startswith l "CELL_DATA" = false) :
    ∀ e ∈ errs, startswith e "Invalid comment" = false := by
  have hfind : findCellData lines = none := findCellData_eq_none.mpr hno
  unfold validateLines at h
  by_cases he : lines.isEmpty = true
  · rw [if_pos he] at h
    exact Except.noConfusion h
  · rw [if_neg he] at h
    injection h with h'
    injection h' with he' hw'
    subst he'
    intro e hmem
    rw [cellDataErrors_eq_nil hfind, List.append_nil] at hmem
    unfold headerErrors at hmem
    split at hmem
    · cases hmem
    · rw [List.mem_singleton] at hmem
      subst hmem
      decide

theorem claim_C5_witness :
    startswith "Missing or invalid VTK version header" "Invalid comment" = false :=
  claim_C5 ["# hello", "# world"] ["Missing or invalid VTK version header"]
    ["Section 'ASCII' not found in first 20 lines",
      "Section 'DATASET' not found in first 20 lines",
      "Section 'POINTS' not found in first 20 lines",
      "Section 'CELLS' not found in first 20 lines",
      "Section 'CELL_TYPES' not found in first 20 lines"] rfl (by decide)
    "Missing or invalid VTK version header" (by decide)

/-- C6: for a path with no file behind it, validate returns exactly one
error, "File not found: path", and no warnings. -/
theorem claim_C6 (fs : String → Option (List String)) (filepath : String)
    (h : fs filepath = none) :
    validate_vtk_file fs filepath =
      Except.ok (["File not found: " ++ filepath], []) := by
  unfold validate_vtk_file
  rw [h]

theorem claim_C6_witness :
    validate_vtk_file (fun _ => none) "missing.vtk" =
      Except.ok (["File not found: " ++ "missing.vtk"], []) :=
  claim_C6 (fun _ => none) "missing.vtk" rfl

/-- C7: for a readable nonempty file, the returned error list contains
"Missing or invalid VTK version header" iff the first line does not start
with the literal prefix "# vtk DataFile Version". -/
theorem claim_C7 (l : String) (rest errs warns : List String)
    (h : validateLines (l :: rest) = Except.ok (errs, warns)) :
    ("Missing or invalid VTK version header" ∈ errs ↔
      startswith l "# vtk DataFile Version" = false) := by
  unfold validateLines at h
  rw [if_neg (by simp)] at h
  injection h with h'
  injection h' with he' hw'
  subst he'
  rw [List.mem_append]
  have hnot : "Missing or invalid VTK version header" ∉ cellDataErrors (l :: rest) := by
    intro hmem
    have h45 := cellDataErrors_length hmem
    have h37 : ("Missing or invalid VTK version header").length = 37 := rfl
    omega
  rw [or_iff_left hnot]
  unfold headerErrors
  rw [List.getD_cons_zero]
  by_cases hsw : startswith l "# vtk DataFile Version" = true
  · rw [if_pos hsw]
    simp [hsw]
  · rw [if_neg hsw]
    have hsw' : startswith l "# vtk DataFile Version" = false := by
      cases hb : startswith l "# vtk DataFile Version" with
      | false => rfl
      | true => exact absurd hb hsw
    simp [hsw']

theorem claim_C7_witness :
    ("Missing or invalid VTK version header" ∈ ([] : List String) ↔
      startswith "# vtk DataFile Version 2.0" "# vtk DataFile Version" = false) :=
  claim_C7 "# vtk DataFile Version 2.0" [] []
    ["Section 'ASCII' not found in first 20 lines",
      "Section 'DATASET' not found in first 20 lines",
      "Section 'POINTS' not found in first 20 lines",
      "Section 'CELLS' not found in first 20 lines",
      "Section 'CELL_TYPES' not found in first 20 lines"] rfl

theorem runTotals_ok (fs : String → Option (List String)) (args : List String) :
    ∀ acc : Nat, (∀ p ∈ args, validate_vtk_file fs p ≠ Except.error ()) →
      runTotals fs args acc = Except.ok (acc + (args.map (errCount fs)).sum) := by
  induction args with
  | nil =>
    intro acc _
    simp [runTotals]
  | cons p ps ih =>
    intro acc hok
    cases hv : validate_vtk_file fs p with
    | error e =>
      cases e
      exact absurd hv (hok p (List.mem_cons_self p ps))
    | ok r =>
      obtain ⟨es, ws⟩ := r
      have htail : ∀ q ∈ ps, validate_vtk_file fs q ≠ Except.error () :=
        fun q hq => hok q (List.mem_cons_of_mem p hq)
      have hcount : errCount fs p = es.length := by
        unfold errCount
        rw [hv]
      simp only [runTotals, hv]
      rw [ih (acc + es.length) htail]
      simp only [List.map_cons, List.sum_cons, hcount]
      rw [Nat.add_assoc]

/-- C8: for a run over a nonempty argument list in which no validation
raises, main reports len(args) as total files, the exact sum of per-file
error counts as total errors, and exits 1 exactly when that sum is
positive (0 otherwise); warnings are never consulted. -/
theorem claim_C8 (fs : String → Option (List String)) (args : List String)
    (_hne : args ≠ [])
    (hok : ∀ p ∈ args, validate_vtk_file fs p ≠ Except.error ()) :
    mainResult fs args =
      Except.ok (if (args.map (errCount fs)).sum > 0 then 1 else 0,
        args.length, (args.map (errCount fs)).sum) := by
  unfold mainResult
  rw [runTotals_ok fs args 0 hok, Nat.zero_add]

theorem claim_C8_witness :
    mainResult (fun _ => none) ["a.vtk"] =
      Except.ok
        (if ((["a.vtk"].map (errCount (fun _ => none))).sum > 0) then 1 else 0,
          (["a.vtk"] : List String).length,
          (["a.vtk"].map (errCount (fun _ => none))).sum) :=
  claim_C8 (fun _ => none) ["a.vtk"] (by decide)
    (by
      intro p hp
      rw [List.mem_singleton] at hp
      subst hp
      intro hcon
      exact Except.noConfusion hcon)

/-- C9: validate is deterministic and depends only on the file contents
behind the given path: equal contents yield identical error and warning
lists, order included. -/
theorem claim_C9 (fs1 fs2 : String → Option (List String)) (filepath : String)
    (h : fs1 filepath = fs2 filepath) :
    validate_vtk_file fs1 filepath = validate_vtk_file fs2 filepath := by
  unfold validate_vtk_file
  rw [h]

theorem claim_C9_witness :
    validate_vtk_file (fun _ => some ["A"]) "f.vtk" =
      validate_vtk_file (fun p => if p = "f.vtk" then some ["A"] else none) "f.vtk" :=
  claim_C9 (fun _ => some ["A"])
    (fun p => if p = "f.vtk" then some ["A"] else none) "f.vtk" (by decide)

/-- C10: the CELL_DATA section start is detected on the raw, unstripped
line only: when every line whose stripped form starts with CELL_DATA is
indented (its raw text does not start with CELL_DATA), a completed
validation returns only the header errors — no CELL_DATA comment error,
whatever "#" lines occur. -/
theorem claim_C10 (lines errs warns : List String)
    (h : validateLines lines = Except.ok (errs, warns))
    (hindent : ∀ l ∈ lines, startswith (strip l) "CELL_DATA" = true →
      startswith l "CELL_DATA" = false) :
    errs = headerErrors lines := by
  have hno : ∀ l ∈ lines, startswith l "CELL_DATA" = false := by
    intro l hl
    cases hb : startswith l "CELL_DATA" with
    | false => rfl
    | true =>
      have hres := hindent l hl (strip_startswith_cell hb)
      rw [hb] at hres
      exact hres
  have hfind : findCellData lines = none := findCellData_eq_none.mpr hno
  unfold validateLines at h
  by_cases he : lines.isEmpty = true
  · rw [if_pos he] at h
    exact Except.noConfusion h
  · rw [if_neg he] at h
    injection h with h'
    injection h' with he' hw'
    rw [← he', cellDataErrors_eq_nil hfind, List.append_nil]

theorem claim_C10_witness :
    ["Missing or invalid VTK version header"] =
      headerErrors ["  CELL_DATA 1", "# x"] :=
  claim_C10 ["  CELL_DATA 1", "# x"] ["Missing or invalid VTK version header"]
    ["Section 'ASCII' not found in first 20 lines",
      "Section 'DATASET' not found in first 20 lines",
      "Section 'POINTS' not found in first 20 lines",
      "Section 'CELLS' not found in first 20 lines",
      "Section 'CELL_TYPES' not found in first 20 lines"] rfl (by decide)

end VTKValidate
